import Mathlib

/-!
Shallow embedding of the purchase-requisition workflow application
(`app.py`, plus the bootstrap script `create_superadmin.py`).

The application is a Flask app over SQLite.  The embedding models the three
relational tables the verified claims are about — `budget_categories`, `pr`
(with `pr_items`) and `po` — as lists of records, and the three request
handlers that write to those tables — `pr_new` (app.py:884), `budget_exception_approval`
(app.py:1254) and `create_po` (app.py:1471) — as pure functions from a database
state and typed request inputs to `Except` of an error or a new state.
All other routes in app.py (dashboard, vendor/user/notification management,
PR viewing, listings, search, health) only read these tables or write
unrelated tables (`vendors`, `users`, `notifications`, `approval_history`,
`audit_log`), which was checked by inspecting every INSERT/UPDATE/DELETE
statement in the source; hence the operation type `Op` below enumerates
exactly the state-changing operations on the modelled tables.

Monetary amounts are Python floats in the source; they are modelled as `ℚ`
(no claim depends on float rounding).  SQLite string values stay `String`.
Python truthiness of optional form fields (missing key or empty string) is
modelled with `Option`.
-/

namespace Weeda

/-- Budget status string constants, from the `BUDGET_STATUS` dict (app.py:490-495). -/
def IN_BUDGET : String := "IN_BUDGET"

/-- See `IN_BUDGET`; value of `BUDGET_STATUS['OUT_OF_BUDGET']` (app.py:492). -/
def OUT_OF_BUDGET : String := "OUT_OF_BUDGET"

/-- See `IN_BUDGET`; value of `BUDGET_STATUS['EXCEPTION_APPROVED']` (app.py:493). -/
def EXCEPTION_APPROVED : String := "EXCEPTION_APPROVED"

/-- PR status constants, from the `PR_STATUS` dict (app.py:497-502) and the
string literals used in `pr_new` (app.py:924,931). -/
def SUBMITTED : String := "SUBMITTED"

/-- See `SUBMITTED`; the initial status when the budget check fails (app.py:931). -/
def BUDGET_EXCEPTION_PENDING : String := "BUDGET_EXCEPTION_PENDING"

/-- See `SUBMITTED`; set by `create_po` (app.py:1543). -/
def PO_CREATED : String := "PO_CREATED"

/-- See `SUBMITTED`; set by the reject branch of `budget_exception_approval` (app.py:1318). -/
def REJECTED : String := "REJECTED"

/-- One row of the `budget_categories` table (app.py:281-291).
`remaining_amount` is a generated column, modelled as the derived function
`BudgetCategory.remaining_amount` below. -/
structure BudgetCategory where
  department : String
  category : String
  fiscal_year : String
  allocated_amount : ℚ
  spent_amount : ℚ
deriving DecidableEq

/-- The generated column `remaining_amount REAL GENERATED ALWAYS AS
(allocated_amount - spent_amount)` (app.py:288). -/
def BudgetCategory.remaining_amount (b : BudgetCategory) : ℚ :=
  b.allocated_amount - b.spent_amount

/-- The WHERE clause `department=? AND category=? AND fiscal_year=?` used by
every query against `budget_categories` (app.py:574, 1039, 1359). -/
def BudgetCategory.keyMatch (b : BudgetCategory) (d c fy : String) : Bool :=
  b.department == d && b.category == c && b.fiscal_year == fy

/-- One row of the `pr_items` table (app.py:353-367). -/
structure PRItem where
  item_no : Nat
  item_description : String
  quantity : Int
  unit_price : ℚ
  total_price : ℚ
deriving DecidableEq

/-- One row of the `pr` table (app.py:295-349), restricted to the columns the
claims depend on.  `quotation_filename` is `Option` because the column is
nullable and the source tests it for truthiness (app.py:1499). -/
structure PR where
  id : Nat
  department : String
  fiscal_year : String
  created_by : Nat
  budget_category : Option String
  budget_status : String
  status : String
  total_amount : ℚ
  vendor_name : String
  quotation_filename : Option String
  budget_exception_approver : Option Nat
  items : List PRItem
deriving DecidableEq

/-- One row of the `po` table (app.py:131-145), restricted to the columns the
claims depend on.  The table has UNIQUE constraints on both `pr_id` and
`po_no`; `create_po` also checks both explicitly before inserting. -/
structure PO where
  pr_id : Nat
  po_no : String
  vendor_name : String
  total_amount : ℚ
  created_by : Nat
deriving DecidableEq

/-- The modelled database state: the three tables the claims are about. -/
structure DB where
  budgets : List BudgetCategory
  prs : List PR
  pos : List PO
deriving DecidableEq

/-- Result of `check_budget_availability` (app.py:567-593): the dict
with keys `available` and `remaining` (the `message` key is presentation
only and omitted). -/
structure BudgetCheck where
  available : Bool
  remaining : ℚ
deriving DecidableEq

/-- Error taxonomy of the request handlers: `abort(403)` from `role_required`
(app.py:545), `abort(404)` (app.py:1266), flashed validation messages, and
flashed conflict messages (duplicate PO, existing PO). -/
inductive Err where
  | authorization
  | notFound (msg : String)
  | validation (msg : String)
  | conflict (msg : String)
deriving DecidableEq

/-- `check_budget_availability(department, category, amount, fiscal_year)`
(app.py:567-593): fetch the first `budget_categories` row matching the key;
if none, not available with remaining 0; else available iff
`remaining_amount >= amount`, reporting the row's remaining amount. -/
def check_budget_availability (db : DB) (department category : String)
    (amount : ℚ) (fiscal_year : String) : BudgetCheck :=
  match db.budgets.find? (fun b => b.keyMatch department category fiscal_year) with
  | none => ⟨false, 0⟩
  | some b =>
      if b.remaining_amount ≥ amount then ⟨true, b.remaining_amount⟩
      else ⟨false, b.remaining_amount⟩

/-- Modelled from the spec: the approval router `approvalPath(amount,
budgetStatus)` described in spec §4.2 is not present in the source under
`src/` (the shipped variant's schema is commented "NO APPROVAL SYSTEM",
app.py:293, and no approve/submit route exists); this definition follows the
spec's rules 1-4 verbatim: OUT_OF_BUDGET routes to [approver1]; otherwise
amount ≤ 10,000 routes to [approver1], amount ≤ 50,000 to
[approver2, approver3], and anything larger to [approver4]. -/
def approvalPath (amount : ℚ) (budgetStatus : String) : List String :=
  if budgetStatus = OUT_OF_BUDGET then ["approver1"]
  else if amount ≤ 10000 then ["approver1"]
  else if amount ≤ 50000 then ["approver2", "approver3"]
  else ["approver4"]

/-- One line item of the POST `/pr/new` form, an element of the JSON `items`
array (app.py:904, 1010-1014).  The source converts the numeric fields with
`float(...)` / `int(...)` without any sign or range validation. -/
structure ItemInput where
  item_description : String
  quantity : Int
  unit_price : ℚ
  total_price : ℚ
deriving DecidableEq

/-- The POST `/pr/new` request input (app.py:885-932).  `budget_category`
is `none` when the form field is missing or empty (Python truthiness,
app.py:915).  `quotation` is `none` when no file is attached or the filename
is empty (app.py:888-896); `file_save_ok` models whether
`save_quotation_file` succeeds (app.py:976-987) — on failure the freshly
inserted row is deleted again, so the request leaves the state unchanged. -/
structure PRNewInput where
  department : String
  budget_category : Option String
  fiscal_year : String
  quotation : Option String
  file_save_ok : Bool
  vendor_name : String
  items : List ItemInput
deriving DecidableEq

/-- `total_amount = sum(float(item.get('total_price', 0)) for item in items)`
(app.py:911). -/
def pr_total (inp : PRNewInput) : ℚ :=
  (inp.items.map ItemInput.total_price).sum

/-- The combined condition of app.py:914-918 and 927: `budget_check` is
computed only when a budget category was given, and the Python test
`budget_check and budget_check['available']` is true exactly when a category
was given and its availability check succeeded. -/
def budget_check_passed (db : DB) (inp : PRNewInput) : Bool :=
  match inp.budget_category with
  | some c =>
      (check_budget_availability db inp.department c (pr_total inp) inp.fiscal_year).available
  | none => false

/-- `AUTOINCREMENT` id for a new `pr` row: one more than the largest id in use. -/
def next_pr_id (db : DB) : Nat :=
  (db.prs.map PR.id).foldr max 0 + 1

/-- `enumerate(items, 1)` (app.py:1002): the stored `pr_items` rows carry
1-based sequential `item_no` values in input order. -/
def number_items (items : List ItemInput) : List PRItem :=
  (items.enumFrom 1).map fun p =>
    { item_no := p.1
      item_description := p.2.item_description
      quantity := p.2.quantity
      unit_price := p.2.unit_price
      total_price := p.2.total_price }

/-- The `UPDATE budget_categories SET spent_amount = spent_amount + ? WHERE
department=? AND category=? AND fiscal_year=?` statement (app.py:1036-1040):
every row matching the key has its spent amount increased by `amount`
(the UNIQUE constraint on the key makes at most one row match). -/
def reserve (budgets : List BudgetCategory) (d c fy : String) (amount : ℚ) :
    List BudgetCategory :=
  budgets.map fun b =>
    if b.keyMatch d c fy then { b with spent_amount := b.spent_amount + amount } else b

/-- The POST branch of `pr_new` (app.py:881-1074), guarded by
`role_required("user")` (app.py:883).  In source order: reject a missing
quotation file (app.py:888-896); reject an empty item list (app.py:906-908);
compute `total_amount` (app.py:911); run the budget check when a category was
given (app.py:913-918); derive `budget_status` and the initial PR status
(app.py:923-931); insert the PR row (app.py:947-971); abort (deleting the
fresh row again, a net no-op on prior state) when saving the quotation file
fails (app.py:976-987); insert the numbered items (app.py:1002-1015); and
reserve the budget exactly when the check passed (app.py:1034-1040).
Vendor-code validation (app.py:935-944) concerns only the `vendors` table and
is elided.  Returns the new state and the created PR row. -/
def pr_new (db : DB) (role : String) (actor : Nat) (inp : PRNewInput) :
    Except Err (DB × PR) :=
  if role ≠ "user" then .error .authorization
  else match inp.quotation with
  | none => .error (.validation "Quotation file is required")
  | some qfile =>
    if inp.items = [] then .error (.validation "At least one item is required")
    else
      let total_amount := pr_total inp
      let passed := budget_check_passed db inp
      let budget_status := if passed then IN_BUDGET else OUT_OF_BUDGET
      let initial_status := if passed then SUBMITTED else BUDGET_EXCEPTION_PENDING
      if ¬ inp.file_save_ok then .error (.validation "Failed to save quotation file")
      else
        let pr : PR :=
          { id := next_pr_id db
            department := inp.department
            fiscal_year := inp.fiscal_year
            created_by := actor
            budget_category := inp.budget_category
            budget_status := budget_status
            status := initial_status
            total_amount := total_amount
            vendor_name := inp.vendor_name
            quotation_filename := some qfile
            budget_exception_approver := none
            items := number_items inp.items }
        let db1 : DB := { db with prs := db.prs ++ [pr] }
        let db2 : DB :=
          match inp.budget_category with
          | some c =>
              if passed then
                { db1 with budgets := reserve db1.budgets inp.department c inp.fiscal_year total_amount }
              else db1
          | none => db1
        .ok (db2, pr)

/-- `SELECT ... FROM pr WHERE id=?` — lookup of a PR row by primary key. -/
def find_pr (prs : List PR) (pr_id : Nat) : Option PR :=
  prs.find? (fun p => p.id == pr_id)

/-- `UPDATE pr SET ... WHERE id=?`: apply `f` to every row whose id matches
(`id` is the primary key, so at most one row matches). -/
def update_pr (prs : List PR) (pr_id : Nat) (f : PR → PR) : List PR :=
  prs.map fun p => if p.id == pr_id then f p else p

/-- The approve branch of `budget_exception_approval` (app.py:1274-1290):
set `budget_status='EXCEPTION_APPROVED'`, record the approver, and set
`status='SUBMITTED'`. -/
def apply_exception_approve (actor : Nat) (p : PR) : PR :=
  { p with
      budget_status := EXCEPTION_APPROVED
      budget_exception_approver := some actor
      status := SUBMITTED }

/-- The POST branch of `budget_exception_approval` (app.py:1251-1347),
guarded by `role_required("superadmin")` (app.py:1253).  The only state
guard is app.py:1265: the handler aborts with 404 unless the PR exists and
its `budget_status` equals `OUT_OF_BUDGET`; the PR's `status` column is not
consulted.  Action "approve" applies `apply_exception_approve`; action
"reject" sets `status='REJECTED'` (app.py:1316-1324); any other action value
falls through to the redirect without an UPDATE. -/
def budget_exception_approval (db : DB) (role : String) (actor pr_id : Nat)
    (action : String) : Except Err DB :=
  if role ≠ "superadmin" then .error .authorization
  else match find_pr db.prs pr_id with
  | none => .error (.notFound "PR not found or doesn't require budget exception")
  | some pr =>
    if pr.budget_status ≠ OUT_OF_BUDGET then
      .error (.notFound "PR not found or doesn't require budget exception")
    else if action = "approve" then
      .ok { db with prs := update_pr db.prs pr_id (apply_exception_approve actor) }
    else if action = "reject" then
      .ok { db with prs := update_pr db.prs pr_id (fun p => { p with status := REJECTED }) }
    else .ok db

/-- Python's `str.strip()` (app.py:1505): drop whitespace from both ends. -/
def strip (s : String) : String :=
  ⟨((s.data.dropWhile Char.isWhitespace).reverse.dropWhile Char.isWhitespace).reverse⟩

/-- The POST branch of `create_po` (app.py:1468-1601), guarded by
`role_required("procurement", "superadmin")` (app.py:1470).  In source
order: an existing `po` row for the PR aborts with a conflict and no change
(app.py:1478-1484); the PR must exist with `status IN ('SUBMITTED',
'BUDGET_EXCEPTION_PENDING')` (app.py:1487-1496); the PR must have a
quotation file (app.py:1499-1501); the stripped PO number must be non-empty
(app.py:1505-1510) and not already used (app.py:1513-1519); then the PO row
is inserted (app.py:1522-1536) and the PR status set to `'PO_CREATED'`
(app.py:1541-1546). -/
def create_po (db : DB) (role : String) (actor pr_id : Nat) (po_no_raw : String) :
    Except Err (DB × PO) :=
  if role ≠ "procurement" ∧ role ≠ "superadmin" then .error .authorization
  else match db.pos.find? (fun po => po.pr_id == pr_id) with
  | some _ => .error (.conflict "PR ini sudah ada PO")
  | none =>
    match find_pr db.prs pr_id with
    | none => .error (.notFound "PR tidak ditemukan")
    | some pr =>
      if ¬ (pr.status = SUBMITTED ∨ pr.status = BUDGET_EXCEPTION_PENDING) then
        .error (.notFound "PR tidak ditemukan atau belum dalam status SUBMITTED/BUDGET_EXCEPTION_PENDING")
      else match pr.quotation_filename with
      | none => .error (.validation "PR must have quotation file")
      | some _ =>
        let po_no := strip po_no_raw
        if po_no = "" then .error (.validation "PO Number is required")
        else if db.pos.any (fun po => po.po_no == po_no) then
          .error (.conflict "PO Number sudah digunakan")
        else
          let po : PO :=
            { pr_id := pr_id
              po_no := po_no
              vendor_name := pr.vendor_name
              total_amount := pr.total_amount
              created_by := actor }
          .ok ({ db with
                   pos := db.pos ++ [po]
                   prs := update_pr db.prs pr_id (fun p => { p with status := PO_CREATED }) },
               po)

/-- The state-changing operations of the application on the modelled tables.
These are the only handlers in app.py whose INSERT/UPDATE/DELETE statements
touch `budget_categories`, `pr`, `pr_items` or `po` (every write statement in
the source was inspected; all remaining writes target `users`, `vendors`,
`notifications`, `approval_history` or `audit_log`). -/
inductive Op where
  | prNew (role : String) (actor : Nat) (inp : PRNewInput)
  | budgetException (role : String) (actor pr_id : Nat) (action : String)
  | createPo (role : String) (actor pr_id : Nat) (po_no_raw : String)
deriving DecidableEq

/-- One request against the database: on any error the handler's transaction
rolls back (app.py:85-94 and §7 of the error taxonomy), leaving the state
unchanged. -/
def step (db : DB) (op : Op) : DB :=
  match op with
  | .prNew role actor inp =>
      match pr_new db role actor inp with
      | .ok (db', _) => db'
      | .error _ => db
  | .budgetException role actor pr_id action =>
      match budget_exception_approval db role actor pr_id action with
      | .ok db' => db'
      | .error _ => db
  | .createPo role actor pr_id po_no_raw =>
      match create_po db role actor pr_id po_no_raw with
      | .ok (db', _) => db'
      | .error _ => db

end Weeda

namespace Weeda

def sampleBudget : BudgetCategory :=
  { department := "IT", category := "Hardware", fiscal_year := "2025"
    allocated_amount := 500000, spent_amount := 0 }

def sampleDB : DB := { budgets := [sampleBudget], prs := [], pos := [] }

def sampleItem : ItemInput :=
  { item_description := "Laptop", quantity := 1, unit_price := 5000, total_price := 5000 }

def sampleInput : PRNewInput :=
  { department := "IT", budget_category := some "Hardware", fiscal_year := "2025"
    quotation := some "q.pdf", file_save_ok := true, vendor_name := "ACME"
    items := [sampleItem] }

/-- The PR row built by a successful `pr_new` request (the INSERT at
app.py:947-971 plus the quotation update at app.py:990-999 and the item
inserts at app.py:1002-1015). -/
def built_pr (db : DB) (actor : Nat) (inp : PRNewInput) (qfile : String) : PR :=
  { id := next_pr_id db
    department := inp.department
    fiscal_year := inp.fiscal_year
    created_by := actor
    budget_category := inp.budget_category
    budget_status := if budget_check_passed db inp then IN_BUDGET else OUT_OF_BUDGET
    status := if budget_check_passed db inp then SUBMITTED else BUDGET_EXCEPTION_PENDING
    total_amount := pr_total inp
    vendor_name := inp.vendor_name
    quotation_filename := some qfile
    budget_exception_approver := none
    items := number_items inp.items }

/-- Elimination principle for a successful `pr_new` request: the guards that
must have passed and the exact shape of the resulting state. -/
theorem pr_new_ok_elim {db : DB} {role : String} {actor : Nat} {inp : PRNewInput}
    {db' : DB} {pr : PR} (h : pr_new db role actor inp = .ok (db', pr)) :
    role = "user" ∧ (∃ qfile, inp.quotation = some qfile ∧ pr = built_pr db actor inp qfile) ∧
    inp.items ≠ [] ∧ inp.file_save_ok = true ∧
    db'.prs = db.prs ++ [pr] ∧ db'.pos = db.pos ∧
    db'.budgets = (match inp.budget_category with
      | some c =>
          if budget_check_passed db inp then
            reserve db.budgets inp.department c inp.fiscal_year (pr_total inp)
          else db.budgets
      | none => db.budgets) := by
  unfold pr_new at h
  split at h
  · exact absurd h (by simp)
  next hrole =>
    split at h
    · exact absurd h (by simp)
    next q hq =>
      split at h
      · exact absurd h (by simp)
      next hitems =>
        split at h
        · exact absurd h (by simp)
        next hsave =>
          cases h
          refine ⟨not_not.mp hrole, ⟨q, hq, rfl⟩, hitems, not_not.mp hsave, ?_, ?_, ?_⟩ <;>
            cases hc : inp.budget_category <;>
              cases hp : budget_check_passed db inp <;>
                simp [hc, hp]

/-- Updating rows by primary key commutes with lookup by primary key, as long
as the update preserves the key. -/
theorem find_pr_update_pr (prs : List PR) (j : Nat) (f : PR → PR)
    (hf : ∀ p, (f p).id = p.id) (i : Nat) :
    find_pr (update_pr prs j f) i =
      (find_pr prs i).map (fun p => if p.id == j then f p else p) := by
  unfold find_pr update_pr
  rw [List.find?_map]
  have hpred : ((fun p : PR => p.id == i) ∘ fun p => if p.id == j then f p else p) =
      (fun p : PR => p.id == i) := by
    funext p
    by_cases hp : p.id == j <;> simp [Function.comp, hp, hf]
  rw [hpred]

/-- The stored item numbers of a created PR are 1, 2, ..., n in input order. -/
theorem number_items_map_item_no (items : List ItemInput) :
    (number_items items).map PRItem.item_no = List.range' 1 items.length := by
  unfold number_items
  rw [List.map_map]
  have hcomp : (PRItem.item_no ∘ fun p : Nat × ItemInput =>
      ({ item_no := p.1, item_description := p.2.item_description, quantity := p.2.quantity,
         unit_price := p.2.unit_price, total_price := p.2.total_price } : PRItem)) = Prod.fst :=
    funext fun p => rfl
  rw [hcomp, List.enumFrom_map_fst]

/-- Numbering the items does not change their total prices. -/
theorem number_items_map_total_price (items : List ItemInput) :
    (number_items items).map PRItem.total_price = items.map ItemInput.total_price := by
  unfold number_items
  rw [List.map_map]
  have hcomp : (PRItem.total_price ∘ fun p : Nat × ItemInput =>
      ({ item_no := p.1, item_description := p.2.item_description, quantity := p.2.quantity,
         unit_price := p.2.unit_price, total_price := p.2.total_price } : PRItem)) =
      ItemInput.total_price ∘ Prod.snd :=
    funext fun p => rfl
  rw [hcomp, ← List.map_map, List.enumFrom_map_snd]

/-- Numbering the items does not change how many there are. -/
theorem number_items_length (items : List ItemInput) :
    (number_items items).length = items.length := by
  simp [number_items]

/-- Elimination principle for a successful budget-exception action: the role
and budget-status guards must have passed (the PR's `status` is nowhere
consulted), and the state is updated according to the action value. -/
theorem budget_exception_ok_elim {db : DB} {role : String} {actor pr_id : Nat}
    {action : String} {db' : DB}
    (h : budget_exception_approval db role actor pr_id action = .ok db') :
    role = "superadmin" ∧
    ∃ pr, find_pr db.prs pr_id = some pr ∧ pr.budget_status = OUT_OF_BUDGET ∧
      ((action = "approve" ∧
          db' = { db with prs := update_pr db.prs pr_id (apply_exception_approve actor) }) ∨
       (action ≠ "approve" ∧ action = "reject" ∧
          db' = { db with
                    prs := update_pr db.prs pr_id (fun p => { p with status := REJECTED }) }) ∨
       (action ≠ "approve" ∧ action ≠ "reject" ∧ db' = db)) := by
  unfold budget_exception_approval at h
  split at h
  · exact absurd h (by simp)
  next hrole =>
    cases hfind : find_pr db.prs pr_id with
    | none =>
      simp only [hfind] at h
      exact Except.noConfusion h
    | some pr =>
      simp only [hfind] at h
      split at h
      · exact absurd h (by simp)
      next hbs =>
        refine ⟨not_not.mp hrole, pr, rfl, not_not.mp hbs, ?_⟩
        split at h
        next ha => cases h; exact Or.inl ⟨ha, rfl⟩
        next ha =>
          split at h
          next hr2 => cases h; exact Or.inr (Or.inl ⟨ha, hr2, rfl⟩)
          next hr2 => cases h; exact Or.inr (Or.inr ⟨ha, hr2, rfl⟩)

/-- Elimination principle for a successful `create_po` request: every
precondition that must have passed and the exact shape of the new state. -/
theorem create_po_ok_elim {db : DB} {role : String} {actor pr_id : Nat}
    {raw : String} {db' : DB} {po : PO}
    (h : create_po db role actor pr_id raw = .ok (db', po)) :
    (role = "procurement" ∨ role = "superadmin") ∧
    db.pos.find? (fun p => p.pr_id == pr_id) = none ∧
    ∃ pr, find_pr db.prs pr_id = some pr ∧
      (pr.status = SUBMITTED ∨ pr.status = BUDGET_EXCEPTION_PENDING) ∧
      pr.quotation_filename.isSome = true ∧
      strip raw ≠ "" ∧ db.pos.any (fun p => p.po_no == strip raw) = false ∧
      po = { pr_id := pr_id, po_no := strip raw, vendor_name := pr.vendor_name,
             total_amount := pr.total_amount, created_by := actor } ∧
      db' = { db with
                pos := db.pos ++ [po]
                prs := update_pr db.prs pr_id (fun p => { p with status := PO_CREATED }) } := by
  unfold create_po at h
  split at h
  · exact absurd h (by simp)
  next hrole =>
    cases hpo : db.pos.find? (fun p => p.pr_id == pr_id) with
    | some p0 =>
      simp only [hpo] at h
      exact Except.noConfusion h
    | none =>
      simp only [hpo] at h
      cases hfind : find_pr db.prs pr_id with
      | none =>
        simp only [hfind] at h
        exact Except.noConfusion h
      | some pr =>
        simp only [hfind] at h
        split at h
        · exact absurd h (by simp)
        next hst =>
          cases hq : pr.quotation_filename with
          | none =>
            simp only [hq] at h
            exact Except.noConfusion h
          | some q =>
            simp only [hq] at h
            split at h
            · exact absurd h (by simp)
            next hne =>
              split at h
              · exact absurd h (by simp)
              next hdup =>
                cases h
                refine ⟨?_, rfl, pr, rfl, not_not.mp hst, by simp [hq], hne,
                  Bool.not_eq_true _ ▸ by simpa using hdup, rfl, rfl⟩
                by_contra hcon
                push_neg at hcon
                exact hrole ⟨hcon.1, hcon.2⟩

/-- Counterexample to C2: on `sampleDB` (budget row IT/Hardware/2025 with
500,000 remaining) a PR for 5,000 whose budget check succeeds is created with
initial status "SUBMITTED", not "DRAFT" (and not BUDGET_EXCEPTION_PENDING);
`pr_new` never produces a "DRAFT" status (app.py:924). -/
theorem C2_counterexample :
    (pr_new sampleDB "user" 3 sampleInput).toOption.map (fun r => r.2.status) = some SUBMITTED ∧
    budget_check_passed sampleDB sampleInput = true ∧
    SUBMITTED ≠ "DRAFT" ∧ SUBMITTED ≠ BUDGET_EXCEPTION_PENDING := by
  refine ⟨?_, ?_, by decide, by decide⟩ <;>
    norm_num [pr_new, budget_check_passed, check_budget_availability, sampleDB, sampleBudget,
      sampleInput, sampleItem, BudgetCategory.keyMatch, BudgetCategory.remaining_amount,
      List.find?, pr_total, Except.toOption]

/-- C2 (amended): every newly created PR has initial status SUBMITTED — not
DRAFT — or BUDGET_EXCEPTION_PENDING exactly when the budget check did not
pass; a PR whose budget check succeeds starts in SUBMITTED. -/
theorem C2_initial_status_amended {db : DB} {role : String} {actor : Nat}
    {inp : PRNewInput} {db' : DB} {pr : PR} (h : pr_new db role actor inp = .ok (db', pr)) :
    pr.status = if budget_check_passed db inp then SUBMITTED else BUDGET_EXCEPTION_PENDING := by
  obtain ⟨-, ⟨q, hq, hpr⟩, -⟩ := pr_new_ok_elim h
  rw [hpr]
  rfl

/-- The PR row produced by `pr_new sampleDB "user" 3 sampleInput`. -/
def samplePR : PR :=
  { id := 1, department := "IT", fiscal_year := "2025", created_by := 3
    budget_category := some "Hardware", budget_status := IN_BUDGET, status := SUBMITTED
    total_amount := 5000, vendor_name := "ACME", quotation_filename := some "q.pdf"
    budget_exception_approver := none
    items := [{ item_no := 1, item_description := "Laptop", quantity := 1,
                unit_price := 5000, total_price := 5000 }] }

/-- The database state after `pr_new sampleDB "user" 3 sampleInput`: the PR is
stored and the budget reservation has moved spent_amount from 0 to 5000. -/
def sampleDBAfter : DB :=
  { budgets := [{ sampleBudget with spent_amount := 5000 }], prs := [samplePR], pos := [] }

/-- Concrete evaluation of `pr_new` on the sample state. -/
theorem pr_new_sample_eq :
    pr_new sampleDB "user" 3 sampleInput = .ok (sampleDBAfter, samplePR) := by
  norm_num [pr_new, budget_check_passed, check_budget_availability, sampleDB, sampleBudget,
    sampleInput, sampleItem, BudgetCategory.keyMatch, BudgetCategory.remaining_amount,
    List.find?, pr_total, reserve, number_items, next_pr_id, samplePR, sampleDBAfter,
    List.enumFrom, IN_BUDGET, SUBMITTED]

/-- Witness for C2 (amended) at the sample instance. -/
theorem C2_initial_status_amended_witness :
    samplePR.status =
      if budget_check_passed sampleDB sampleInput then SUBMITTED else BUDGET_EXCEPTION_PENDING :=
  C2_initial_status_amended pr_new_sample_eq

/-- C10: every PR created without a budget_category selected (so no
availability check is performed) is assigned budget_status OUT_OF_BUDGET and
initial status BUDGET_EXCEPTION_PENDING, exactly as if the budget check had
failed; only a PR with a budget_category whose check returns available=true
gets budget_status IN_BUDGET. -/
theorem C10_no_category_is_out_of_budget {db : DB} {role : String} {actor : Nat}
    {inp : PRNewInput} {db' : DB} {pr : PR} (h : pr_new db role actor inp = .ok (db', pr)) :
    (inp.budget_category = none →
      pr.budget_status = OUT_OF_BUDGET ∧ pr.status = BUDGET_EXCEPTION_PENDING) ∧
    (pr.budget_status = IN_BUDGET ↔
      ∃ c, inp.budget_category = some c ∧
        (check_budget_availability db inp.department c (pr_total inp)
          inp.fiscal_year).available = true) := by
  obtain ⟨-, ⟨q, hq, hpr⟩, -⟩ := pr_new_ok_elim h
  subst hpr
  constructor
  · intro hc
    simp [built_pr, budget_check_passed, hc]
  · cases hc : inp.budget_category with
    | none => simp [built_pr, budget_check_passed, hc, IN_BUDGET, OUT_OF_BUDGET]
    | some c =>
      cases hp : (check_budget_availability db inp.department c (pr_total inp)
          inp.fiscal_year).available <;>
        simp [built_pr, budget_check_passed, hc, hp, IN_BUDGET, OUT_OF_BUDGET]

/-- Input identical to `sampleInput` but with no budget category selected. -/
def noCatInput : PRNewInput := { sampleInput with budget_category := none }

/-- The PR produced from `noCatInput`: OUT_OF_BUDGET and exception-pending. -/
def noCatPR : PR :=
  { samplePR with
      budget_category := none, budget_status := OUT_OF_BUDGET
      status := BUDGET_EXCEPTION_PENDING }

/-- State after creating the no-category PR: no budget row is touched. -/
def noCatDBAfter : DB := { budgets := [sampleBudget], prs := [noCatPR], pos := [] }

/-- Concrete evaluation of `pr_new` on the no-category input. -/
theorem pr_new_noCat_eq :
    pr_new sampleDB "user" 3 noCatInput = .ok (noCatDBAfter, noCatPR) := by
  norm_num [pr_new, budget_check_passed, check_budget_availability, sampleDB, sampleBudget,
    noCatInput, sampleInput, sampleItem, BudgetCategory.keyMatch,
    BudgetCategory.remaining_amount, List.find?, pr_total, reserve, number_items, next_pr_id,
    noCatPR, samplePR, noCatDBAfter, List.enumFrom, OUT_OF_BUDGET, BUDGET_EXCEPTION_PENDING]

/-- Witness for C10 at the no-category instance. -/
theorem C10_no_category_is_out_of_budget_witness :
    (noCatInput.budget_category = none →
      noCatPR.budget_status = OUT_OF_BUDGET ∧ noCatPR.status = BUDGET_EXCEPTION_PENDING) ∧
    (noCatPR.budget_status = IN_BUDGET ↔
      ∃ c, noCatInput.budget_category = some c ∧
        (check_budget_availability sampleDB noCatInput.department c (pr_total noCatInput)
          noCatInput.fiscal_year).available = true) :=
  C10_no_category_is_out_of_budget pr_new_noCat_eq

/-- C9: for every PR at creation time, the stored total_amount equals the sum
of its line items' total_price values, and the items are stored with 1-based
sequential item numbers. -/
theorem C9_total_amount_and_item_numbers {db : DB} {role : String} {actor : Nat}
    {inp : PRNewInput} {db' : DB} {pr : PR} (h : pr_new db role actor inp = .ok (db', pr)) :
    pr.total_amount = (pr.items.map PRItem.total_price).sum ∧
    pr.items.map PRItem.item_no = List.range' 1 pr.items.length := by
  obtain ⟨-, ⟨q, hq, hpr⟩, -⟩ := pr_new_ok_elim h
  subst hpr
  constructor
  · show pr_total inp = ((number_items inp.items).map PRItem.total_price).sum
    rw [number_items_map_total_price]
    rfl
  · show (number_items inp.items).map PRItem.item_no =
      List.range' 1 (number_items inp.items).length
    rw [number_items_map_item_no, number_items_length]

/-- Witness for C9 at the sample instance. -/
theorem C9_total_amount_and_item_numbers_witness :
    samplePR.total_amount = (samplePR.items.map PRItem.total_price).sum ∧
    samplePR.items.map PRItem.item_no = List.range' 1 samplePR.items.length :=
  C9_total_amount_and_item_numbers pr_new_sample_eq

/-- C7: when a PR is created and the availability check returned
available=true for its budget category, the reservation increases exactly the
matching category rows' spent_amount by the PR's total amount (leaving every
other row unchanged); no reservation happens when the check failed or no
category was given. -/
theorem C7_reservation_exactly_on_success {db : DB} {role : String} {actor : Nat}
    {inp : PRNewInput} {db' : DB} {pr : PR} (h : pr_new db role actor inp = .ok (db', pr)) :
    (∀ c, inp.budget_category = some c → budget_check_passed db inp = true →
      db'.budgets = db.budgets.map fun b =>
        if b.keyMatch inp.department c inp.fiscal_year then
          { b with spent_amount := b.spent_amount + pr.total_amount }
        else b) ∧
    (budget_check_passed db inp = false → db'.budgets = db.budgets) := by
  obtain ⟨-, ⟨q, hq, hpr⟩, -, -, -, -, hbud⟩ := pr_new_ok_elim h
  subst hpr
  constructor
  · intro c hc hp
    rw [hbud]
    simp [hc, hp, reserve, built_pr]
  · intro hp
    rw [hbud]
    cases hc : inp.budget_category <;> simp [hc, hp]

/-- Witness for C7 at the sample instance. -/
theorem C7_reservation_exactly_on_success_witness :
    (∀ c, sampleInput.budget_category = some c →
      budget_check_passed sampleDB sampleInput = true →
      sampleDBAfter.budgets = sampleDB.budgets.map fun b =>
        if b.keyMatch sampleInput.department c sampleInput.fiscal_year then
          { b with spent_amount := b.spent_amount + samplePR.total_amount }
        else b) ∧
    (budget_check_passed sampleDB sampleInput = false →
      sampleDBAfter.budgets = sampleDB.budgets) :=
  C7_reservation_exactly_on_success pr_new_sample_eq

/-- C1: `approvalPath(amount, budgetStatus)` returns [approver1] when
budgetStatus is OUT_OF_BUDGET; otherwise [approver1] for amount ≤ 10,000,
[approver2, approver3] for 10,000 < amount ≤ 50,000, and [approver4] for
amount > 50,000; both thresholds are inclusive. -/
theorem C1_approvalPath_routing (amount : ℚ) (budgetStatus : String) :
    (budgetStatus = OUT_OF_BUDGET → approvalPath amount budgetStatus = ["approver1"]) ∧
    (budgetStatus ≠ OUT_OF_BUDGET → amount ≤ 10000 →
      approvalPath amount budgetStatus = ["approver1"]) ∧
    (budgetStatus ≠ OUT_OF_BUDGET → 10000 < amount → amount ≤ 50000 →
      approvalPath amount budgetStatus = ["approver2", "approver3"]) ∧
    (budgetStatus ≠ OUT_OF_BUDGET → 50000 < amount →
      approvalPath amount budgetStatus = ["approver4"]) := by
  refine ⟨fun h => ?_, fun h h1 => ?_, fun h h1 h2 => ?_, fun h h2 => ?_⟩
  · rw [approvalPath, if_pos h]
  · rw [approvalPath, if_neg h, if_pos h1]
  · rw [approvalPath, if_neg h, if_neg (not_le.mpr h1), if_pos h2]
  · rw [approvalPath, if_neg h, if_neg (not_le.mpr (by linarith)), if_neg (not_le.mpr h2)]

/-- Witness for C1: boundary amounts 10,000 and 10,000.01 with IN_BUDGET
status, plus one OUT_OF_BUDGET and one large-amount instance. -/
theorem C1_approvalPath_routing_witness :
    approvalPath 10000 IN_BUDGET = ["approver1"] ∧
    approvalPath (10000 + 1 / 100) IN_BUDGET = ["approver2", "approver3"] ∧
    approvalPath 30000 OUT_OF_BUDGET = ["approver1"] ∧
    approvalPath 75000 IN_BUDGET = ["approver4"] :=
  ⟨(C1_approvalPath_routing 10000 IN_BUDGET).2.1 (by decide) (by norm_num),
   (C1_approvalPath_routing (10000 + 1 / 100) IN_BUDGET).2.2.1 (by decide) (by norm_num)
     (by norm_num),
   (C1_approvalPath_routing 30000 OUT_OF_BUDGET).1 rfl,
   (C1_approvalPath_routing 75000 IN_BUDGET).2.2.2 (by decide) (by norm_num)⟩

/-- A PR that was already rejected by a budget-exception rejection: its status
is REJECTED but its budget_status is still OUT_OF_BUDGET (the reject branch,
app.py:1316-1324, changes only `status`). -/
def rejectedPR : PR :=
  { id := 1, department := "IT", fiscal_year := "2025", created_by := 3
    budget_category := some "Hardware", budget_status := OUT_OF_BUDGET, status := REJECTED
    total_amount := 30000, vendor_name := "ACME", quotation_filename := some "q.pdf"
    budget_exception_approver := none, items := [] }

/-- A database holding only the rejected PR. -/
def dbRejected : DB := { budgets := [sampleBudget], prs := [rejectedPR], pos := [] }

/-- Counterexample to C3: the guard of `budget_exception_approval`
(app.py:1265) tests only `budget_status`, not `status`; on a PR whose status
is REJECTED (not BUDGET_EXCEPTION_PENDING) but whose budget_status is still
OUT_OF_BUDGET, a superadmin approve action succeeds and re-applies the
transition, setting status to SUBMITTED — instead of failing without change. -/
theorem C3_counterexample :
    rejectedPR.status ≠ BUDGET_EXCEPTION_PENDING ∧
    (budget_exception_approval dbRejected "superadmin" 7 1 "approve").toOption.map
        (fun db => (find_pr db.prs 1).map PR.status) = some (some SUBMITTED) ∧
    rejectedPR.status ≠ SUBMITTED := by
  refine ⟨by decide, ?_, by decide⟩
  norm_num [budget_exception_approval, find_pr, update_pr, dbRejected, rejectedPR,
    apply_exception_approve, List.find?, Except.toOption, OUT_OF_BUDGET, REJECTED, SUBMITTED]

/-- C3 (amended): a budget-exception action succeeds exactly when the actor is
a superadmin and the PR exists with budget_status OUT_OF_BUDGET — the PR's
status (e.g. BUDGET_EXCEPTION_PENDING, REJECTED, or even PO_CREATED) is not
consulted, so the action can re-apply the transition to an already-decided
PR; when the guard fails the handler aborts with an error and the state is
unchanged. -/
theorem C3_exception_guard_amended (db : DB) (role : String) (actor pr_id : Nat)
    (action : String) :
    ((∃ db', budget_exception_approval db role actor pr_id action = .ok db') ↔
      role = "superadmin" ∧
        ∃ pr, find_pr db.prs pr_id = some pr ∧ pr.budget_status = OUT_OF_BUDGET) ∧
    (∀ e, budget_exception_approval db role actor pr_id action = .error e →
      step db (.budgetException role actor pr_id action) = db) := by
  constructor
  · constructor
    · rintro ⟨db', hdb'⟩
      obtain ⟨hrole, pr, hfind, hbs, -⟩ := budget_exception_ok_elim hdb'
      exact ⟨hrole, pr, hfind, hbs⟩
    · rintro ⟨hrole, pr, hfind, hbs⟩
      subst hrole
      unfold budget_exception_approval
      simp only [hfind, hbs]
      norm_num
      split
      · exact ⟨_, rfl⟩
      · split
        · exact ⟨_, rfl⟩
        · exact ⟨_, rfl⟩
  · intro e he
    simp [step, he]

/-- Witness for C3 (amended) at the rejected-PR instance. -/
theorem C3_exception_guard_amended_witness :
    ((∃ db', budget_exception_approval dbRejected "superadmin" 7 1 "approve" = .ok db') ↔
      "superadmin" = "superadmin" ∧
        ∃ pr, find_pr dbRejected.prs 1 = some pr ∧ pr.budget_status = OUT_OF_BUDGET) ∧
    (∀ e, budget_exception_approval dbRejected "superadmin" 7 1 "approve" = .error e →
      step dbRejected (.budgetException "superadmin" 7 1 "approve") = dbRejected) :=
  C3_exception_guard_amended dbRejected "superadmin" 7 1 "approve"

/-- C5: for every PR that already has a PO, attempting to create a second PO
for it fails with a conflict error, and the state — in particular the
existing PO record and the PR's status — is left unchanged. -/
theorem C5_second_po_conflict (db : DB) (role : String) (actor pr_id : Nat) (raw : String)
    (hrole : role = "procurement" ∨ role = "superadmin")
    (hpo : (db.pos.find? (fun po => po.pr_id == pr_id)).isSome = true) :
    create_po db role actor pr_id raw = .error (.conflict "PR ini sudah ada PO") ∧
    step db (.createPo role actor pr_id raw) = db := by
  obtain ⟨po, hfind⟩ := Option.isSome_iff_exists.mp hpo
  have h1 : create_po db role actor pr_id raw = .error (.conflict "PR ini sudah ada PO") := by
    unfold create_po
    rcases hrole with h | h <;> subst h <;> simp [hfind]
  exact ⟨h1, by simp [step, h1]⟩

/-- A PO already issued for PR 1, and a state holding it. -/
def samplePO : PO :=
  { pr_id := 1, po_no := "PO-1", vendor_name := "ACME", total_amount := 30000, created_by := 5 }

/-- State in which PR 1 already has a PO and status PO_CREATED. -/
def dbWithPO : DB :=
  { budgets := [sampleBudget], prs := [{ rejectedPR with status := PO_CREATED }]
    pos := [samplePO] }

/-- Witness for C5: a second PO attempt for PR 1 fails and changes nothing. -/
theorem C5_second_po_conflict_witness :
    create_po dbWithPO "procurement" 5 1 "PO-2" = .error (.conflict "PR ini sudah ada PO") ∧
    step dbWithPO (.createPo "procurement" 5 1 "PO-2") = dbWithPO :=
  C5_second_po_conflict dbWithPO "procurement" 5 1 "PO-2" (Or.inl rfl) (by decide)

/-- A PR awaiting budget-exception approval (as created by `pr_new` when the
budget check fails): status BUDGET_EXCEPTION_PENDING, budget_status
OUT_OF_BUDGET, quotation attached. -/
def pendingPR : PR := { rejectedPR with status := BUDGET_EXCEPTION_PENDING }

/-- A database holding only the exception-pending PR. -/
def dbPending : DB := { budgets := [sampleBudget], prs := [pendingPR], pos := [] }

/-- Counterexample to C4: `create_po` accepts a PR whose status is
BUDGET_EXCEPTION_PENDING (app.py:1491), i.e. one still awaiting its
budget-exception approval rather than fully approved, and PO_CREATED is not
terminal: a subsequent budget-exception approve on the same PR (whose
budget_status is still OUT_OF_BUDGET) moves it from PO_CREATED back to
SUBMITTED. -/
theorem C4_counterexample :
    pendingPR.status = BUDGET_EXCEPTION_PENDING ∧
    (find_pr (step dbPending (.createPo "procurement" 5 1 "PO-9")).prs 1).map PR.status =
      some PO_CREATED ∧
    (find_pr (step (step dbPending (.createPo "procurement" 5 1 "PO-9"))
        (.budgetException "superadmin" 7 1 "approve")).prs 1).map PR.status = some SUBMITTED ∧
    SUBMITTED ≠ PO_CREATED := by
  refine ⟨by decide, by decide, by decide, by decide⟩

/-- C4 (amended): `createPO` succeeds only for a PR whose status is SUBMITTED
or BUDGET_EXCEPTION_PENDING (not necessarily fully approved) with an attached
quotation file reference, no existing PO, and a non-empty, globally unique
po_no; on success it transitions the owning PR to PO_CREATED, and neither a
further `create_po` nor a `pr_new` request ever moves a PR out of PO_CREATED
— but a budget-exception action can (see the counterexample), so the
transition is not irreversible. -/
theorem C4_create_po_amended (db : DB) (role : String) (actor pr_id : Nat) (raw : String)
    (db' : DB) (po : PO) (h : create_po db role actor pr_id raw = .ok (db', po)) :
    (∃ pr, find_pr db.prs pr_id = some pr ∧
      (pr.status = SUBMITTED ∨ pr.status = BUDGET_EXCEPTION_PENDING) ∧
      pr.quotation_filename.isSome = true) ∧
    db.pos.find? (fun p => p.pr_id == pr_id) = none ∧
    strip raw ≠ "" ∧ db.pos.any (fun p => p.po_no == strip raw) = false ∧
    (find_pr db'.prs pr_id).map PR.status = some PO_CREATED ∧
    (∀ role2 actor2 pid2 raw2,
      (find_pr (step db' (.createPo role2 actor2 pid2 raw2)).prs pr_id).map PR.status =
        some PO_CREATED) ∧
    (∀ role2 actor2 inp2,
      (find_pr (step db' (.prNew role2 actor2 inp2)).prs pr_id).map PR.status =
        some PO_CREATED) := by
  obtain ⟨hrole, hnopo, pr, hfind, hst, hq, hne, hdup, hpo, hdb'⟩ := create_po_ok_elim h
  have hprs' : db'.prs = update_pr db.prs pr_id fun p => { p with status := PO_CREATED } := by
    rw [hdb']
  have hpos' : db'.pos = db.pos ++ [po] := by rw [hdb']
  have hpoid : po.pr_id = pr_id := by rw [hpo]
  have hfind0 : db.prs.find? (fun p => p.id == pr_id) = some pr := hfind
  have hid0 := List.find?_some hfind0
  have hid : (pr.id == pr_id) = true := by simpa using hid0
  have hprid : pr.id = pr_id := by simpa using hid
  have hf : ∀ p : PR, (({ p with status := PO_CREATED } : PR)).id = p.id := fun p => rfl
  have h5 : find_pr db'.prs pr_id = some { pr with status := PO_CREATED } := by
    rw [hprs', find_pr_update_pr db.prs pr_id _ hf pr_id, hfind]
    dsimp only [Option.map]
    rw [if_pos hid]
  refine ⟨⟨pr, hfind, hst, hq⟩, hnopo, hne, hdup, by simp [h5], ?_, ?_⟩
  · intro role2 actor2 pid2 raw2
    cases hres : create_po db' role2 actor2 pid2 raw2 with
    | error e => simp only [step, hres]; simp [h5]
    | ok res =>
      obtain ⟨db2, po2⟩ := res
      obtain ⟨-, hnopo2, pr2, -, -, -, -, -, -, hdb2⟩ := create_po_ok_elim hres
      simp only [step, hres]
      have hmem : po ∈ db'.pos := by rw [hpos']; simp
      have hne2 := List.find?_eq_none.mp hnopo2 po hmem
      have hne2' : (pr_id == pid2) = false := by
        rw [hpoid] at hne2
        simpa using hne2
      have hprs2 : db2.prs = update_pr db'.prs pid2 fun p => { p with status := PO_CREATED } := by
        rw [hdb2]
      rw [hprs2, find_pr_update_pr db'.prs pid2 _ hf pr_id, h5]
      simp [hprid, hne2']
  · intro role2 actor2 inp2
    cases hres : pr_new db' role2 actor2 inp2 with
    | error e => simp only [step, hres]; simp [h5]
    | ok res =>
      obtain ⟨db2, npr⟩ := res
      obtain ⟨-, -, -, -, hprs2, -, -⟩ := pr_new_ok_elim hres
      simp only [step, hres]
      unfold find_pr at h5 ⊢
      rw [hprs2, List.find?_append, h5]
      rfl

/-- The PO produced by `create_po dbPending "procurement" 5 1 "PO-9"`. -/
def poNine : PO :=
  { pr_id := 1, po_no := "PO-9", vendor_name := "ACME", total_amount := 30000, created_by := 5 }

/-- The state after issuing PO-9 for the pending PR. -/
def dbPendingPO : DB :=
  { budgets := [sampleBudget], prs := [{ pendingPR with status := PO_CREATED }]
    pos := [poNine] }

/-- Concrete evaluation of `create_po` on the pending-PR state. -/
theorem create_po_pending_eq :
    create_po dbPending "procurement" 5 1 "PO-9" = .ok (dbPendingPO, poNine) := by
  rfl

/-- Witness for C4 (amended) at the pending-PR instance. -/
theorem C4_create_po_amended_witness :
    (∃ pr, find_pr dbPending.prs 1 = some pr ∧
      (pr.status = SUBMITTED ∨ pr.status = BUDGET_EXCEPTION_PENDING) ∧
      pr.quotation_filename.isSome = true) ∧
    dbPending.pos.find? (fun p => p.pr_id == 1) = none ∧
    strip "PO-9" ≠ "" ∧ dbPending.pos.any (fun p => p.po_no == strip "PO-9") = false ∧
    (find_pr dbPendingPO.prs 1).map PR.status = some PO_CREATED ∧
    (∀ role2 actor2 pid2 raw2,
      (find_pr (step dbPendingPO (.createPo role2 actor2 pid2 raw2)).prs 1).map PR.status =
        some PO_CREATED) ∧
    (∀ role2 actor2 inp2,
      (find_pr (step dbPendingPO (.prNew role2 actor2 inp2)).prs 1).map PR.status =
        some PO_CREATED) :=
  C4_create_po_amended dbPending "procurement" 5 1 "PO-9" dbPendingPO poNine
    create_po_pending_eq

/-- A successful budget-exception action never touches the budget table. -/
theorem budget_exception_budgets_const {db : DB} {role : String} {actor pr_id : Nat}
    {action : String} {db' : DB}
    (h : budget_exception_approval db role actor pr_id action = .ok db') :
    db'.budgets = db.budgets := by
  obtain ⟨-, pr, -, -, hcase⟩ := budget_exception_ok_elim h
  rcases hcase with ⟨-, rfl⟩ | ⟨-, -, rfl⟩ | ⟨-, -, rfl⟩ <;> rfl

/-- A successful `create_po` never touches the budget table. -/
theorem create_po_budgets_const {db : DB} {role : String} {actor pr_id : Nat}
    {raw : String} {db' : DB} {po : PO}
    (h : create_po db role actor pr_id raw = .ok (db', po)) :
    db'.budgets = db.budgets := by
  obtain ⟨-, -, pr, -, -, -, -, -, -, rfl⟩ := create_po_ok_elim h
  rfl

/-- A line item with a negative total price; nothing in `pr_new` validates the
sign of the `float(...)`-converted form values. -/
def negItem : ItemInput :=
  { item_description := "Refund", quantity := 1, unit_price := -5, total_price := -5 }

/-- The sample request with the negative line item. -/
def negInput : PRNewInput := { sampleInput with items := [negItem] }

/-- Counterexample to C8: creating a PR whose single line item has
total_price = -5 passes the availability check (remaining 500,000 ≥ -5) and
the reservation adds -5, so the category's spent_amount decreases from 0 to
-5 — an operation of the program other than an explicit reversal decreased
spent_amount. -/
theorem C8_counterexample :
    sampleDB.budgets.map BudgetCategory.spent_amount = [0] ∧
    (step sampleDB (.prNew "user" 3 negInput)).budgets.map BudgetCategory.spent_amount = [-5] ∧
    (-5 : ℚ) < 0 := by
  refine ⟨by norm_num [sampleDB, sampleBudget], ?_, by norm_num⟩
  norm_num [step, pr_new, budget_check_passed, check_budget_availability, sampleDB, sampleBudget,
    negInput, sampleInput, negItem, BudgetCategory.keyMatch, BudgetCategory.remaining_amount,
    List.find?, pr_total, reserve, number_items, next_pr_id, List.enumFrom]

/-- C8 (amended): spent_amount never decreases under any operation whose PR
total is nonnegative — PR creation with a negative total is the sole
exception, as the counterexample shows — and budget-exception actions
(approve or reject, and in particular rejecting a PR) leave every budget
category's spent_amount unchanged. -/
theorem C8_spent_monotone_amended (db : DB) (op : Op)
    (hnn : ∀ role actor inp, op = .prNew role actor inp → 0 ≤ pr_total inp) :
    List.Forall₂ (fun b b' : BudgetCategory => b.spent_amount ≤ b'.spent_amount)
      db.budgets (step db op).budgets ∧
    (∀ role actor pr_id action, op = .budgetException role actor pr_id action →
      (step db op).budgets = db.budgets) := by
  have hrefl : ∀ l : List BudgetCategory,
      List.Forall₂ (fun b b' => b.spent_amount ≤ b'.spent_amount) l l :=
    fun l => List.forall₂_same.mpr fun b _ => le_refl _
  constructor
  · cases op with
    | prNew role actor inp =>
      cases hres : pr_new db role actor inp with
      | error e => simp only [step, hres]; exact hrefl _
      | ok res =>
        obtain ⟨db2, pr⟩ := res
        obtain ⟨-, -, -, -, -, -, hbud⟩ := pr_new_ok_elim hres
        simp only [step, hres]
        rw [hbud]
        cases hc : inp.budget_category with
        | none => exact hrefl _
        | some c =>
          dsimp only
          by_cases hp : budget_check_passed db inp = true
          · rw [if_pos hp]
            unfold reserve
            rw [List.forall₂_map_right_iff]
            refine List.forall₂_same.mpr fun b _ => ?_
            dsimp only
            split
            · exact le_add_of_nonneg_right (hnn role actor inp rfl)
            · exact le_refl _
          · rw [if_neg hp]
            exact hrefl _
    | budgetException role actor pr_id action =>
      cases hres : budget_exception_approval db role actor pr_id action with
      | error e => simp only [step, hres]; exact hrefl _
      | ok db2 =>
        simp only [step, hres]
        rw [budget_exception_budgets_const hres]
        exact hrefl _
    | createPo role actor pr_id raw =>
      cases hres : create_po db role actor pr_id raw with
      | error e => simp only [step, hres]; exact hrefl _
      | ok res =>
        obtain ⟨db2, po⟩ := res
        simp only [step, hres]
        rw [create_po_budgets_const hres]
        exact hrefl _
  · rintro role actor pr_id action rfl
    cases hres : budget_exception_approval db role actor pr_id action with
    | error e => simp [step, hres]
    | ok db2 =>
      simp only [step, hres]
      exact budget_exception_budgets_const hres

/-- Witness for C8 (amended): a budget-exception rejection on the pending PR
leaves the budget table unchanged. -/
theorem C8_spent_monotone_amended_witness :
    List.Forall₂ (fun b b' : BudgetCategory => b.spent_amount ≤ b'.spent_amount)
      dbPending.budgets
      (step dbPending (.budgetException "superadmin" 7 1 "reject")).budgets ∧
    (∀ role actor pr_id action,
      (Op.budgetException "superadmin" 7 1 "reject") = .budgetException role actor pr_id action →
      (step dbPending (.budgetException "superadmin" 7 1 "reject")).budgets =
        dbPending.budgets) :=
  C8_spent_monotone_amended dbPending (.budgetException "superadmin" 7 1 "reject")
    (fun _ _ _ h => nomatch h)

/-- C6: `checkAvailability(department, category, amount, fiscal_year)` returns
available=false exactly when no budget-category row matches the key or the
matching row's remaining amount is strictly less than amount; otherwise it
returns available=true, and in both cases it reports the row's remaining
amount (0 when no row matches). -/
theorem C6_check_budget_availability_spec (db : DB) (d c : String) (a : ℚ) (fy : String) :
    ((check_budget_availability db d c a fy).available = false ↔
      db.budgets.find? (fun b => b.keyMatch d c fy) = none ∨
      ∃ b, db.budgets.find? (fun b => b.keyMatch d c fy) = some b ∧ b.remaining_amount < a) ∧
    (check_budget_availability db d c a fy).remaining =
      ((db.budgets.find? (fun b => b.keyMatch d c fy)).map BudgetCategory.remaining_amount).getD 0 := by
  unfold check_budget_availability
  cases h : db.budgets.find? (fun b => b.keyMatch d c fy) with
  | none => simp
  | some b =>
    by_cases hr : b.remaining_amount ≥ a
    · simp [hr, not_lt.mpr hr]
    · simp [hr, lt_of_not_ge hr]

end Weeda
